import Mathlib

/-!
Shallow embedding of `src/server.py` (jreichert/image_randomizer).

The Python module is an HTTP gateway around two photo providers.  The parts
embedded here are the ones the verified properties talk about: the provider
registry (`_get_provider_configs`), the parameter builder
(`_build_request_params`), the per-provider pre/post hooks, the cache layer
(`_get_from_cache` / `_store_in_cache`), the fetch orchestrator
(`fetch_photo`) and the legacy fetcher (`_fetch_from_provider_old`).

Modelling conventions:
* Python dicts become association lists (`Dict`) with Python's update
  semantics: assigning to an existing key replaces it in place, a new key is
  appended.  `frozenset(d.items())` becomes `List.toFinset`.
* The network is a deterministic stub `Transport : HttpRequest → HttpResponse`;
  every function that performs I/O also returns the list of requests it
  issued, in order.  `HttpRequest` records url, headers, params and timeout
  exactly as they are passed to `requests.get` (a missing keyword argument is
  `none`).  `resp.json()` is modelled by the stub response's `jsonBody` field
  (`none` means the body is not valid JSON).
* Python exceptions relevant to the control flow become `PyErr`.
  `PyErr.isRequestException` records which of them are instances of
  `requests.RequestException` — the class caught by `fetch_photo`.  Note that
  in the `requests` library (since 2.27) `Response.json()` on a non-JSON body
  raises `requests.exceptions.JSONDecodeError`, which is a subclass of
  `requests.exceptions.InvalidJSONError` and hence of `RequestException`;
  `raise_for_status` raises `HTTPError` (also a `RequestException`) exactly
  for status codes in [400, 600).  A `KeyError`/`TypeError` from indexing the
  decoded JSON is not a `RequestException`.  URL-scheme validation performed
  by `requests` is not modelled (the transport stub is total on urls).
* Module-level configuration (`ENABLE_PHOTO_CACHE`, the Unsplash access key
  read from the environment) is passed as explicit parameters.
-/

namespace Server

/-- A Python value as used in parameter dicts: the source only puts strings
and ints there (config defaults are ints/strings, query overrides strings). -/
inductive Value where
  | str : String → Value
  | int : Int → Value
deriving DecidableEq, Repr

/-- Python truthiness of a `Value` (`if theme:` / `blur_val or ""`). -/
def Value.truthy : Value → Bool
  | .str s => !s.isEmpty
  | .int n => n != 0

/-- Python `str()` / f-string rendering of a `Value`. -/
def Value.pyStr : Value → String
  | .str s => s
  | .int n => toString n

/-- A Python dict with string keys, as an insertion-ordered association list. -/
abbrev Dict := List (String × Value)

/-- Python `d.get(k)` / `d[k]` lookup (first entry with the key). -/
def dictGet : Dict → String → Option Value
  | [], _ => none
  | (k1, v1) :: d, k => if k = k1 then some v1 else dictGet d k

/-- Python `d[k] = v`: replace the entry in place if the key exists,
otherwise append it. -/
def dictSet (d : Dict) (k : String) (v : Value) : Dict :=
  if d.any (fun p => p.1 = k) then
    d.map (fun p => if p.1 = k then (k, v) else p)
  else d ++ [(k, v)]

/-- Python `d.update(e)`: assign every entry of `e` into `d`, in order. -/
def dictUpdate (d e : Dict) : Dict :=
  e.foldl (fun acc p => dictSet acc p.1 p.2) d

/-- The keys of a dict are pairwise distinct (always true of a real Python
dict; stated as a hypothesis because `Dict` is a raw list). -/
def keysNodup (d : Dict) : Prop := (d.map Prod.fst).Nodup

instance (d : Dict) : Decidable (keysNodup d) := by
  unfold keysNodup; infer_instance

/-- A minimal JSON value, enough for the Unsplash response shape. -/
inductive Json where
  | str : String → Json
  | num : Int → Json
  | obj : List (String × Json) → Json

/-- The Python exceptions that drive control flow in `server.py`. -/
inductive PyErr where
  /-- The `ValueError` raised by `fetch_photo` for an unknown provider. -/
  | valueError : String → PyErr
  /-- The `RuntimeError` raised by `fetch_photo` when re-wrapping a transport
  failure. -/
  | runtimeError : String → PyErr
  /-- The `requests.HTTPError` from `raise_for_status` (status in [400, 600)). -/
  | httpStatusError : PyErr
  /-- The `requests.exceptions.JSONDecodeError` from `resp.json()` on a body that
  is not valid JSON. -/
  | jsonDecodeError : PyErr
  /-- The `KeyError` from indexing a dict that lacks the key (`['urls']`,
  `['full']`). -/
  | keyError : String → PyErr
  /-- The `TypeError` from string-indexing a non-dict JSON value. -/
  | typeError : PyErr
  /-- The `requests.exceptions.MissingSchema` or `InvalidURL` raised when the url handed to
  `requests.get` is not a usable url string. -/
  | invalidUrl : PyErr
deriving DecidableEq, Repr

/-- Which of the modelled exceptions are instances of
`requests.RequestException` — the class caught by `fetch_photo`'s
`except requests.RequestException` clause.  `HTTPError`, `MissingSchema` and
(since requests 2.27) `JSONDecodeError` are; `ValueError`, `RuntimeError`,
`KeyError`, `TypeError` are not. -/
def PyErr.isRequestException : PyErr → Bool
  | .httpStatusError => true
  | .jsonDecodeError => true
  | .invalidUrl => true
  | _ => false

/-- One call to `requests.get`, recording exactly the arguments the source
passes (a keyword argument the source omits is `none`). -/
structure HttpRequest where
  url : String
  headers : Option (List (String × String))
  params : Option Dict
  timeout : Option Nat
deriving DecidableEq, Repr

/-- A stubbed HTTP response.  `jsonBody` is the result of parsing `content`
as JSON (`none` when the body is not valid JSON); the stub supplies it
directly. -/
structure HttpResponse where
  status : Nat
  content : List Nat
  jsonBody : Option Json
  contentType : Option String

/-- A deterministic network stub. -/
abbrev Transport := HttpRequest → HttpResponse

/-- Python `Response.raise_for_status()`: raises `HTTPError` exactly for status
codes in [400, 600). -/
def raiseForStatus (r : HttpResponse) : Except PyErr Unit :=
  if 400 ≤ r.status ∧ r.status < 600 then .error .httpStatusError else .ok ()

/-- Python `resp.json()`: the decoded body, or `JSONDecodeError`. -/
def respJson (r : HttpResponse) : Except PyErr Json :=
  match r.jsonBody with
  | some j => .ok j
  | none => .error .jsonDecodeError

/-- Python `j[k]` on a decoded JSON value: `KeyError` on a dict without the
key, `TypeError` on a non-dict. -/
def jsonField (j : Json) (k : String) : Except PyErr Json :=
  match j with
  | .obj fields =>
    match fields.find? (fun p => p.1 = k) with
    | some p => .ok p.2
    | none => .error (.keyError k)
  | _ => .error .typeError

/-- Calling `requests.get` on a non-string (or otherwise unusable) url value raises
a `RequestException` before any network traffic. -/
def urlString (j : Json) : Except PyErr String :=
  match j with
  | .str s => .ok s
  | _ => .error .invalidUrl

/-- Python `resp.headers.get("Content-Type", "image/jpeg")`. -/
def contentTypeOrDefault (r : HttpResponse) : String :=
  r.contentType.getD "image/jpeg"

/-- A provider configuration dict from `_get_provider_configs`.  Both
registered providers define both hooks, so `pre`/`post` are total fields
(the identity/pass-through defaults in `_fetch_from_provider` are dead code
for them).  A post hook may perform network I/O, so it receives the
transport and returns the requests it issued. -/
structure ProviderCfg where
  api_url : String
  headers : List (String × String)
  body_params : Dict
  pre : String → Dict → String × Dict
  post : Transport → HttpResponse → Dict → Except PyErr (List Nat × String) × List HttpRequest

/-- Embedding of `_unsplash_pre` (line 94): identity on url and params. -/
def _unsplash_pre (url : String) (params : Dict) : String × Dict :=
  (url, params)

/-- Embedding of `_unsplash_post` (line 99): decode the JSON body, read
`['urls']['full']`, fetch that url with `timeout=10`, `raise_for_status`,
and return its bytes with the Content-Type (default `image/jpeg`). -/
def _unsplash_post (t : Transport) (resp : HttpResponse) (_params : Dict) :
    Except PyErr (List Nat × String) × List HttpRequest :=
  match respJson resp with
  | .error e => (.error e, [])
  | .ok j =>
    match jsonField j "urls" with
    | .error e => (.error e, [])
    | .ok urls =>
      match jsonField urls "full" with
      | .error e => (.error e, [])
      | .ok full =>
        match urlString full with
        | .error e => (.error e, [])
        | .ok photo_url =>
          let req : HttpRequest :=
            { url := photo_url, headers := none, params := none, timeout := some 10 }
          let img_resp := t req
          match raiseForStatus img_resp with
          | .error e => (.error e, [req])
          | .ok _ => (.ok (img_resp.content, contentTypeOrDefault img_resp), [req])

/-- Embedding of `_lorem_picsum_pre` (line 108): width/height (defaults
1920/1080) go into the url path, `webp` appends `.webp`, `grayscale` and
`blur` become query flags on a brand-new dict; no other input key is
copied to the output. -/
def _lorem_picsum_pre (_url : String) (params : Dict) : String × Dict :=
  let w := (dictGet params "w").getD (Value.int 1920)
  let h := (dictGet params "h").getD (Value.int 1080)
  let ext := if (dictGet params "webp").isSome then ".webp" else ""
  let grayscale_present := (dictGet params "grayscale").isSome
  let blur_present := (dictGet params "blur").isSome
  let blur_val := dictGet params "blur"
  let final_url := "https://picsum.photos/" ++ w.pyStr ++ "/" ++ h.pyStr ++ ext
  let query_params : Dict :=
    (if grayscale_present then [("grayscale", Value.str "")] else []) ++
      (if blur_present then
        [("blur", match blur_val with
                  | some v => if v.truthy then v else Value.str ""
                  | none => Value.str "")]
      else [])
  (final_url, query_params)

/-- Embedding of `_lorem_picsum_post` (line 139): pass through the response
bytes and Content-Type (default `image/jpeg`); no network I/O. -/
def _lorem_picsum_post (_t : Transport) (resp : HttpResponse) (_params : Dict) :
    Except PyErr (List Nat × String) × List HttpRequest :=
  (.ok (resp.content, contentTypeOrDefault resp), [])

/-- The `unsplash` entry of `_get_provider_configs` (line 29).  `accessKey`
is `os.getenv("UNSPLASH_ACCESS_KEY")`; the f-string renders a missing key
as the string `None`. -/
def unsplashCfg (accessKey : Option String) : ProviderCfg :=
  { api_url := "https://api.unsplash.com/photos/random"
    headers := [("Authorization", "Client-ID " ++ accessKey.getD "None")]
    body_params :=
      [("orientation", Value.str "landscape"), ("w", Value.int 1920), ("h", Value.int 1080)]
    pre := _unsplash_pre
    post := _unsplash_post }

/-- The `lorem_picsum` entry of `_get_provider_configs` (line 42). -/
def loremPicsumCfg : ProviderCfg :=
  { api_url := "https://picsum.photos/1920/1080"
    headers := []
    body_params := [("w", Value.int 1920), ("h", Value.int 1080)]
    pre := _lorem_picsum_pre
    post := _lorem_picsum_post }

/-- Embedding of `_get_provider_configs` (line 27): the provider registry. -/
def _get_provider_configs (accessKey : Option String) : List (String × ProviderCfg) :=
  [("unsplash", unsplashCfg accessKey), ("lorem_picsum", loremPicsumCfg)]

/-- Python `_get_provider_configs().get(provider)` (line 239). -/
def lookupProvider (accessKey : Option String) (provider : String) : Option ProviderCfg :=
  ((_get_provider_configs accessKey).find? (fun p => p.1 = provider)).map Prod.snd

/-- Embedding of `_build_request_params` (line 55): copy the provider's
default `body_params`, apply every override, then set `query` from a truthy
`theme` override. -/
def _build_request_params (provider_cfg : ProviderCfg) (overrides : Dict) : Dict :=
  let params := dictUpdate provider_cfg.body_params overrides
  match dictGet overrides "theme" with
  | some theme => if theme.truthy then dictSet params "query" theme else params
  | none => params

/-- A cache key: `(provider, frozenset(overrides.items()))` (lines 204, 219). -/
abbrev CacheKey := String × Finset (String × Value)

/-- The global `photo_cache` dict (line 24), as an association list. -/
abbrev Cache := List (CacheKey × (List Nat × String))

/-- Python `photo_cache.get(cache_key)` (line 206). -/
def cacheGet : Cache → CacheKey → Option (List Nat × String)
  | [], _ => none
  | (k1, v1) :: c, k => if k = k1 then some v1 else cacheGet c k

/-- Python `photo_cache[cache_key] = value` (line 221): replace the entry in
place if the key is present (a Python dict holds it at most once), otherwise
append it. -/
def cachePut : Cache → CacheKey → (List Nat × String) → Cache
  | [], k, v => [(k, v)]
  | (k1, v1) :: c, k, v =>
    if k = k1 then (k, v) :: c else (k1, v1) :: cachePut c k v

/-- Embedding of `_get_from_cache` (line 191).  `enable` is the module-level
`ENABLE_PHOTO_CACHE` flag. -/
def _get_from_cache (enable : Bool) (c : Cache) (provider : String) (overrides : Dict) :
    Option (List Nat × String) :=
  if enable then cacheGet c (provider, overrides.toFinset) else none

/-- Embedding of `_store_in_cache` (line 209): returns the new cache state. -/
def _store_in_cache (enable : Bool) (c : Cache) (provider : String) (overrides : Dict)
    (value : List Nat × String) : Cache :=
  if enable then cachePut c (provider, overrides.toFinset) value else c

/-- Embedding of `_fetch_from_provider` (line 144): run the pre hook on
`(api_url, params.copy())`, issue the GET with the provider headers and the
processed params and `timeout=10`, `raise_for_status`, then run the post
hook.  Returns the result together with every request issued. -/
def _fetch_from_provider (t : Transport) (provider_cfg : ProviderCfg) (params : Dict) :
    Except PyErr (List Nat × String) × List HttpRequest :=
  let pre_fn := provider_cfg.pre
  let post_fn := provider_cfg.post
  let up := pre_fn provider_cfg.api_url params
  let req : HttpRequest :=
    { url := up.1, headers := some provider_cfg.headers, params := some up.2,
      timeout := some 10 }
  let resp := t req
  match raiseForStatus resp with
  | .error e => (.error e, [req])
  | .ok _ =>
    let pr := post_fn t resp up.2
    (pr.1, req :: pr.2)

/-- Embedding of `_fetch_from_provider_old` (line 160): GET the api url with
headers/params/`timeout=10`, `raise_for_status`, decode JSON, read
`['urls']['full']`, GET that url with NO timeout, `raise_for_status`, and
return bytes with Content-Type (default `image/jpeg`). -/
def _fetch_from_provider_old (t : Transport) (provider_cfg : ProviderCfg) (params : Dict) :
    Except PyErr (List Nat × String) × List HttpRequest :=
  let req : HttpRequest :=
    { url := provider_cfg.api_url, headers := some provider_cfg.headers,
      params := some params, timeout := some 10 }
  let response := t req
  match raiseForStatus response with
  | .error e => (.error e, [req])
  | .ok _ =>
    match respJson response with
    | .error e => (.error e, [req])
    | .ok photo_data =>
      match jsonField photo_data "urls" with
      | .error e => (.error e, [req])
      | .ok urls =>
        match jsonField urls "full" with
        | .error e => (.error e, [req])
        | .ok full =>
          match urlString full with
          | .error e => (.error e, [req])
          | .ok photo_url =>
            let req2 : HttpRequest :=
              { url := photo_url, headers := none, params := none, timeout := none }
            let img_resp := t req2
            match raiseForStatus img_resp with
            | .error e => (.error e, [req, req2])
            | .ok _ =>
              (.ok (img_resp.content, contentTypeOrDefault img_resp), [req, req2])

/-- Embedding of `fetch_photo` (line 224).  Returns the result, the new
cache state, and the list of HTTP requests issued.  `accessKey` is the
`UNSPLASH_ACCESS_KEY` environment value and `enable` the
`ENABLE_PHOTO_CACHE` flag. -/
def fetch_photo (accessKey : Option String) (enable : Bool) (t : Transport) (c : Cache)
    (provider : String) (overrides : Dict) :
    Except PyErr (List Nat × String) × Cache × List HttpRequest :=
  match lookupProvider accessKey provider with
  | none => (.error (.valueError ("Unknown provider: " ++ provider)), c, [])
  | some provider_cfg =>
    let params := _build_request_params provider_cfg overrides
    match _get_from_cache enable c provider overrides with
    | some cached => (.ok cached, c, [])
    | none =>
      let fr := _fetch_from_provider t provider_cfg params
      match fr.1 with
      | .ok v => (.ok v, _store_in_cache enable c provider overrides v, fr.2)
      | .error e =>
        if e.isRequestException then
          (.error (.runtimeError ("Failed to fetch photo from " ++ provider)), c, fr.2)
        else (.error e, c, fr.2)

/-! ### Dictionary and cache lemmas -/

lemma dictGet_eq_none_of_any_eq_false (d : Dict) (k : String)
    (h : d.any (fun p => p.1 = k) = false) : dictGet d k = none := by
  induction d with
  | nil => rfl
  | cons p d ih =>
    simp only [List.any_cons, Bool.or_eq_false_iff, decide_eq_false_iff_not] at h
    simp only [dictGet]
    rw [if_neg (fun hk => h.1 hk.symm)]
    exact ih h.2

lemma dictGet_map_replace (d : Dict) (k k2 : String) (v : Value) :
    dictGet (d.map (fun p => if p.1 = k then (k, v) else p)) k2 =
      if k2 = k then (if d.any (fun p => p.1 = k) then some v else none)
      else dictGet d k2 := by
  induction d with
  | nil => simp [dictGet]
  | cons p d ih =>
    rcases p with ⟨k1, v1⟩
    simp only [List.map_cons, List.any_cons]
    by_cases hp : k1 = k
    · subst hp
      simp only [if_pos rfl]
      by_cases hk : k2 = k1
      · subst hk
        simp [dictGet]
      · simp [dictGet, hk, ih]
    · simp only [if_neg hp]
      by_cases hk2 : k2 = k1
      · subst hk2
        simp [dictGet, hp]
      · simp only [decide_eq_false hp, Bool.false_or]
        simp [dictGet, hk2, ih]

lemma dictGet_append (d e : Dict) (k : String) :
    dictGet (d ++ e) k = (dictGet d k).or (dictGet e k) := by
  induction d with
  | nil => simp [dictGet]
  | cons p d ih =>
    rcases p with ⟨k1, v1⟩
    by_cases h : k = k1
    · simp [dictGet, if_pos h]
    · simp [dictGet, if_neg h, ih]

lemma dictGet_dictSet (d : Dict) (k k2 : String) (v : Value) :
    dictGet (dictSet d k v) k2 = if k2 = k then some v else dictGet d k2 := by
  unfold dictSet
  by_cases hc : d.any (fun p => p.1 = k)
  · rw [if_pos hc, dictGet_map_replace, hc]
    split <;> rfl
  · rw [if_neg hc, dictGet_append]
    rw [Bool.not_eq_true] at hc
    by_cases hk : k2 = k
    · rw [if_pos hk, hk, dictGet_eq_none_of_any_eq_false d k hc]
      simp [dictGet]
    · rw [if_neg hk]
      have : dictGet [(k, v)] k2 = none := by
        simp [dictGet, if_neg hk]
      rw [this, Option.or_none]

lemma dictGet_eq_none_of_not_mem_keys (d : Dict) (k : String)
    (h : k ∉ d.map Prod.fst) : dictGet d k = none := by
  induction d with
  | nil => rfl
  | cons p d ih =>
    simp only [List.map_cons, List.mem_cons, not_or] at h
    simp only [dictGet]
    rw [if_neg h.1]
    exact ih h.2

lemma dictGet_dictUpdate (d e : Dict) (k : String) (he : keysNodup e) :
    dictGet (dictUpdate d e) k = (dictGet e k).or (dictGet d k) := by
  induction e generalizing d with
  | nil => simp [dictUpdate, dictGet]
  | cons p es ih =>
    rcases p with ⟨k1, v1⟩
    have hnd : keysNodup es := by
      simpa [keysNodup] using (List.nodup_cons.mp he).2
    have hk1 : k1 ∉ es.map Prod.fst := by
      simpa [keysNodup] using (List.nodup_cons.mp he).1
    simp only [dictUpdate, List.foldl_cons] at *
    rw [ih (dictSet d k1 v1) hnd]
    by_cases hk : k = k1
    · subst hk
      rw [dictGet_eq_none_of_not_mem_keys es k hk1, dictGet_dictSet]
      simp [dictGet]
    · rw [dictGet_dictSet, if_neg hk]
      simp [dictGet, if_neg hk]

lemma cacheGet_cachePut_self (c : Cache) (k : CacheKey) (v : List Nat × String) :
    cacheGet (cachePut c k v) k = some v := by
  induction c with
  | nil => simp [cachePut, cacheGet]
  | cons p c ih =>
    rcases p with ⟨k1, v1⟩
    simp only [cachePut]
    by_cases hk : k = k1
    · rw [if_pos hk]
      simp [cacheGet]
    · rw [if_neg hk]
      simp only [cacheGet]
      rw [if_neg hk]
      exact ih

/-- Every run of `_fetch_from_provider` issues at least one HTTP request
(the primary GET), whatever the outcome. -/
lemma fetch_from_provider_trace_ne_nil (t : Transport) (cfg : ProviderCfg) (params : Dict) :
    (_fetch_from_provider t cfg params).2 ≠ [] := by
  unfold _fetch_from_provider
  rcases hm : raiseForStatus (t
      { url := (cfg.pre cfg.api_url params).1, headers := some cfg.headers,
        params := some (cfg.pre cfg.api_url params).2, timeout := some 10 }) with e | u <;>
    simp [hm]

/-- Unfolding `fetch_photo` when the provider is not registered. -/
lemma fetch_photo_lookup_none (accessKey : Option String) (enable : Bool) (t : Transport)
    (c : Cache) (provider : String) (overrides : Dict)
    (hl : lookupProvider accessKey provider = none) :
    fetch_photo accessKey enable t c provider overrides =
      (.error (.valueError ("Unknown provider: " ++ provider)), c, []) := by
  unfold fetch_photo
  rw [hl]

/-- Unfolding `fetch_photo` on a cache hit. -/
lemma fetch_photo_hit (accessKey : Option String) (enable : Bool) (t : Transport)
    (c : Cache) (provider : String) (overrides : Dict) (cfg : ProviderCfg)
    (v : List Nat × String)
    (hl : lookupProvider accessKey provider = some cfg)
    (hh : _get_from_cache enable c provider overrides = some v) :
    fetch_photo accessKey enable t c provider overrides = (.ok v, c, []) := by
  unfold fetch_photo
  rw [hl]
  simp only [hh]

/-- Unfolding `fetch_photo` on a cache miss. -/
lemma fetch_photo_miss (accessKey : Option String) (enable : Bool) (t : Transport)
    (c : Cache) (provider : String) (overrides : Dict) (cfg : ProviderCfg)
    (hl : lookupProvider accessKey provider = some cfg)
    (hm : _get_from_cache enable c provider overrides = none) :
    fetch_photo accessKey enable t c provider overrides =
      (match (_fetch_from_provider t cfg (_build_request_params cfg overrides)).1 with
       | .ok v =>
         (.ok v, _store_in_cache enable c provider overrides v,
           (_fetch_from_provider t cfg (_build_request_params cfg overrides)).2)
       | .error e =>
         if e.isRequestException then
           (.error (.runtimeError ("Failed to fetch photo from " ++ provider)), c,
             (_fetch_from_provider t cfg (_build_request_params cfg overrides)).2)
         else (.error e, c, (_fetch_from_provider t cfg (_build_request_params cfg overrides)).2)) := by
  unfold fetch_photo
  rw [hl]
  simp only [hm]

/-- The trace of `_fetch_from_provider` starts with the primary request,
built from the pre hook's output on `(api_url, params)`. -/
lemma fetch_from_provider_trace_head (t : Transport) (cfg : ProviderCfg) (params : Dict) :
    (_fetch_from_provider t cfg params).2.head? = some
      { url := (cfg.pre cfg.api_url params).1, headers := some cfg.headers,
        params := some (cfg.pre cfg.api_url params).2, timeout := some 10 } := by
  unfold _fetch_from_provider
  rcases hm : raiseForStatus (t
      { url := (cfg.pre cfg.api_url params).1, headers := some cfg.headers,
        params := some (cfg.pre cfg.api_url params).2, timeout := some 10 }) with e | u <;>
    simp [hm]

/-! ### Concrete stub transports and inputs used by witnesses and
counterexamples -/

/-- A stub transport answering every request with a 200 PNG. -/
def constPng : Transport := fun _ =>
  { status := 200, content := [7, 8], jsonBody := none, contentType := some "image/png" }

/-- A stub transport for the Unsplash flow: the API url gets JSON metadata
with `urls.full`, every other url gets 200 image bytes.  It only looks at
the url, so it is insensitive to timeouts. -/
def uWorld : Transport := fun r =>
  if r.url = "https://api.unsplash.com/photos/random" then
    { status := 200, content := [],
      jsonBody := some (.obj [("urls", .obj [("full", .str "https://img.example/full.jpg")])]),
      contentType := some "application/json" }
  else
    { status := 200, content := [1, 2, 3], jsonBody := none, contentType := some "image/jpeg" }

/-- A stub transport answering every request with 304 Not Modified (a
non-2xx status that `raise_for_status` does not turn into an error). -/
def stub304 : Transport := fun _ =>
  { status := 304, content := [9], jsonBody := none, contentType := none }

/-- A stub transport answering every request with 500. -/
def stub500 : Transport := fun _ =>
  { status := 500, content := [], jsonBody := none, contentType := none }

/-- A stub transport whose 200 response body is not valid JSON. -/
def stubBadJson : Transport := fun _ =>
  { status := 200, content := [1], jsonBody := none, contentType := some "text/html" }

/-- A stub Unsplash flow whose JSON metadata lacks the `full` key. -/
def uWorldNoFull : Transport := fun _ =>
  { status := 200, content := [],
    jsonBody := some (.obj [("urls", .obj [("raw", .str "https://img.example/raw.jpg")])]),
    contentType := some "application/json" }

/-- A stub Unsplash flow whose secondary (image) fetch answers 503. -/
def uWorldBadImg : Transport := fun r =>
  if r.url = "https://api.unsplash.com/photos/random" then
    { status := 200, content := [],
      jsonBody := some (.obj [("urls", .obj [("full", .str "https://img.example/full.jpg")])]),
      contentType := some "application/json" }
  else
    { status := 503, content := [], jsonBody := none, contentType := none }

/-- The override set of spec §8's Provider-B example. -/
def picsumOv : Dict := [("w", Value.int 800), ("h", Value.int 600), ("grayscale", Value.str "")]

/-! ### Claims -/

/-- Claim C7: for every provider config and override mapping (with the keys
of the override dict pairwise distinct, as in any Python dict),
`_build_request_params` returns the provider defaults with every override
applied, overrides winning on key collision, and additionally maps
`"query"` to the `"theme"` override when that override is present and
truthy (Python `if theme:`; for the string values arriving from the query
string, truthy = non-empty).  The non-mutation part of the claim is
inherent in the embedding: the source takes a defensive copy of the
defaults and only reads the overrides, which is what makes
`_build_request_params` a pure function of its two inputs here. -/
theorem build_request_params_correct (cfg : ProviderCfg) (overrides : Dict)
    (ho : keysNodup overrides) :
    (∀ v : Value, dictGet overrides "theme" = some v → v.truthy = true →
      dictGet (_build_request_params cfg overrides) "query" = some v ∧
        ∀ k : String, k ≠ "query" →
          dictGet (_build_request_params cfg overrides) k =
            (dictGet overrides k).or (dictGet cfg.body_params k)) ∧
    ((∀ v : Value, dictGet overrides "theme" = some v → v.truthy = false) →
      ∀ k : String,
        dictGet (_build_request_params cfg overrides) k =
          (dictGet overrides k).or (dictGet cfg.body_params k)) := by
  unfold _build_request_params
  rcases hth : dictGet overrides "theme" with _ | tv
  all_goals dsimp only
  · constructor
    · intro v hv
      exact absurd hv (by simp)
    · intro _ k
      exact dictGet_dictUpdate cfg.body_params overrides k ho
  · by_cases htr : tv.truthy
    · rw [if_pos htr]
      constructor
      · intro v hv _
        rw [Option.some_inj] at hv
        subst hv
        constructor
        · rw [dictGet_dictSet]
          simp
        · intro k hk
          rw [dictGet_dictSet, if_neg hk]
          exact dictGet_dictUpdate cfg.body_params overrides k ho
      · intro hf
        exact absurd (hf tv rfl) (by simp [htr])
    · rw [if_neg htr]
      constructor
      · intro v hv htr2
        rw [Option.some_inj] at hv
        subst hv
        exact absurd htr2 (by simpa using htr)
      · intro _ k
        exact dictGet_dictUpdate cfg.body_params overrides k ho

/-- Concrete overrides for the C7 witness: a truthy theme plus a key that
collides with a Lorem-Picsum default. -/
def themeOv : Dict := [("theme", Value.str "nature"), ("w", Value.str "25")]

/-- Witness for C7 at `themeOv`: the theme override yields
`query = "nature"`, and the `w` override beats the default `1920`. -/
theorem build_request_params_correct_witness :
    dictGet (_build_request_params loremPicsumCfg themeOv) "query" = some (Value.str "nature") ∧
    dictGet (_build_request_params loremPicsumCfg themeOv) "w" = some (Value.str "25") :=
  ⟨((build_request_params_correct loremPicsumCfg themeOv (by decide)).1
      (Value.str "nature") (by decide) (by decide)).1,
   by
    rw [((build_request_params_correct loremPicsumCfg themeOv (by decide)).1
      (Value.str "nature") (by decide) (by decide)).2 "w" (by decide)]
    decide⟩

/-- A cache holding one entry keyed by `("unsplash", frozenset({}))` — the
key of the raw (empty) overrides. -/
def cacheSeededRaw : Cache := [(("unsplash", ([] : Dict).toFinset), ([5], "image/png"))]

/-- A cache holding one entry keyed by the built/merged params of the
unsplash provider for empty overrides (not a key `fetch_photo` ever uses). -/
def cacheSeededBuilt : Cache :=
  [(("unsplash", (_build_request_params (unsplashCfg none) []).toFinset), ([5], "image/png"))]

/-- Claim C3: `_get_from_cache` and `_store_in_cache` key the cache on
`(provider, frozenset(overrides.items()))`, so two override dicts holding
the same (key, value) pairs in any insertion order address the same slot;
and the key is derived from the raw overrides, not the built params: with
the cache seeded at the raw-overrides key, `fetch_photo` hits it and
issues no request, while a cache seeded only at the built-params key
misses. -/
theorem cache_key_insertion_order_irrelevant :
    (∀ (enable : Bool) (c : Cache) (provider : String) (o1 o2 : Dict)
        (v : List Nat × String), o1.Perm o2 →
      _get_from_cache enable c provider o1 = _get_from_cache enable c provider o2 ∧
        _store_in_cache enable c provider o1 v = _store_in_cache enable c provider o2 v) ∧
    fetch_photo none true constPng cacheSeededRaw "unsplash" [] =
      (.ok ([5], "image/png"), cacheSeededRaw, []) ∧
    _get_from_cache true cacheSeededBuilt "unsplash" [] = none := by
  refine ⟨fun enable c provider o1 o2 v hperm => ?_, by rfl, by decide⟩
  have hk : o1.toFinset = o2.toFinset := List.toFinset_eq_of_perm _ _ hperm
  constructor
  · unfold _get_from_cache
    rw [hk]
  · unfold _store_in_cache
    rw [hk]

/-- Witness for C3: `{a:1, b:2}` and `{b:2, a:1}` address the same slot of
a concrete one-entry cache. -/
theorem cache_key_insertion_order_irrelevant_witness :
    _get_from_cache true [(("p", ([("a", Value.str "1"), ("b", Value.str "2")] : Dict).toFinset),
        ([3], "image/png"))] "p" [("a", Value.str "1"), ("b", Value.str "2")] =
      _get_from_cache true [(("p", ([("a", Value.str "1"), ("b", Value.str "2")] : Dict).toFinset),
        ([3], "image/png"))] "p" [("b", Value.str "2"), ("a", Value.str "1")] :=
  (cache_key_insertion_order_irrelevant.1 true
    [(("p", ([("a", Value.str "1"), ("b", Value.str "2")] : Dict).toFinset), ([3], "image/png"))]
    "p" [("a", Value.str "1"), ("b", Value.str "2")] [("b", Value.str "2"), ("a", Value.str "1")]
    ([3], "image/png") (by decide)).1

/-- Claim C8: through the real pipeline (`_build_request_params` then the
Provider-B pre hook), the overrides `{w:800, h:600, grayscale:""}` yield
the final url `https://picsum.photos/800/600` (path ending `/800/600`) and
the query dict exactly `{grayscale: ""}`; correspondingly a `fetch_photo`
call issues exactly that one request. -/
theorem lorem_picsum_pre_shape :
    _lorem_picsum_pre loremPicsumCfg.api_url (_build_request_params loremPicsumCfg picsumOv) =
      ("https://picsum.photos/800/600", [("grayscale", Value.str "")]) ∧
    (fetch_photo none false constPng [] "lorem_picsum" picsumOv).2.2 =
      [{ url := "https://picsum.photos/800/600", headers := some [],
         params := some [("grayscale", Value.str "")], timeout := some 10 }] := by
  constructor <;> rfl

lemma respJson_err (r : HttpResponse) (e : PyErr) (h : respJson r = .error e) :
    e = .jsonDecodeError := by
  unfold respJson at h
  split at h <;> simp_all

lemma jsonField_err (j : Json) (k : String) (e : PyErr) (h : jsonField j k = .error e) :
    e = .keyError k ∨ e = .typeError := by
  unfold jsonField at h
  split at h
  · split at h <;> simp_all
  · simp_all

lemma urlString_err (j : Json) (e : PyErr) (h : urlString j = .error e) : e = .invalidUrl := by
  unfold urlString at h
  split at h <;> simp_all

lemma raiseForStatus_err (r : HttpResponse) (e : PyErr) (h : raiseForStatus r = .error e) :
    e = .httpStatusError := by
  unfold raiseForStatus at h
  split at h <;> simp_all

/-- Every failure of the Unsplash post hook is a JSON-decode, key, type,
url or HTTP-status error. -/
lemma unsplash_post_err_shape (t : Transport) (resp : HttpResponse) (params : Dict)
    (e : PyErr) (h : (_unsplash_post t resp params).1 = .error e) :
    e = .jsonDecodeError ∨ e = .keyError "urls" ∨ e = .keyError "full" ∨ e = .typeError ∨
      e = .invalidUrl ∨ e = .httpStatusError := by
  unfold _unsplash_post at h
  rcases hj : respJson resp with e1 | j <;> rw [hj] at h <;> dsimp only at h
  · injection h with h1
    exact .inl (h1 ▸ respJson_err resp e1 hj)
  · rcases hu : jsonField j "urls" with e2 | urls <;> rw [hu] at h <;> dsimp only at h
    · injection h with h1
      subst h1
      rcases jsonField_err j "urls" e2 hu with h3 | h3 <;> simp [h3]
    · rcases hf : jsonField urls "full" with e3 | full <;> rw [hf] at h <;> dsimp only at h
      · injection h with h1
        subst h1
        rcases jsonField_err urls "full" e3 hf with h3 | h3 <;> simp [h3]
      · rcases hs : urlString full with e4 | photo_url <;> rw [hs] at h <;> dsimp only at h
        · injection h with h1
          subst h1
          simp [urlString_err full e4 hs]
        · rcases hr : raiseForStatus (t
              { url := photo_url, headers := none, params := none, timeout := some 10 }) with
            e5 | u <;> rw [hr] at h <;> dsimp only at h
          · injection h with h1
            subst h1
            simp [raiseForStatus_err _ e5 hr]
          · simp at h

/-- The Unsplash post hook never produces a `ValueError`: its failures are
status, JSON-decode, key, type or url errors. -/
lemma unsplash_post_no_valueError (t : Transport) (resp : HttpResponse) (params : Dict)
    (msg : String) :
    (_unsplash_post t resp params).1 ≠ .error (.valueError msg) := by
  intro h
  rcases unsplash_post_err_shape t resp params (.valueError msg) h with
    h1 | h1 | h1 | h1 | h1 | h1 <;> exact PyErr.noConfusion h1

/-- `_fetch_from_provider` on either registered provider never produces a
`ValueError`. -/
lemma fetch_from_provider_no_valueError (t : Transport) (cfg : ProviderCfg) (params : Dict)
    (msg : String) (hcfg : cfg.post = _unsplash_post ∨ cfg.post = _lorem_picsum_post) :
    (_fetch_from_provider t cfg params).1 ≠ .error (.valueError msg) := by
  unfold _fetch_from_provider
  dsimp only
  split
  · next e heq =>
    unfold raiseForStatus at heq
    split at heq
    · simp at heq
      simp [← heq]
    · simp at heq
  · rcases hcfg with h | h <;> rw [h]
    · exact unsplash_post_no_valueError t _ _ msg
    · simp [_lorem_picsum_post]

/-- The provider registry lookup in closed form: exactly the two keys
`unsplash` and `lorem_picsum` are registered. -/
lemma lookupProvider_eq (accessKey : Option String) (provider : String) :
    lookupProvider accessKey provider =
      if provider = "unsplash" then some (unsplashCfg accessKey)
      else if provider = "lorem_picsum" then some loremPicsumCfg else none := by
  unfold lookupProvider _get_provider_configs
  by_cases h1 : "unsplash" = provider
  · rw [List.find?_cons_of_pos _ (by simp [h1]), if_pos h1.symm]
    rfl
  · rw [List.find?_cons_of_neg _ (by simp [h1]), if_neg (fun hh => h1 hh.symm)]
    by_cases h2 : "lorem_picsum" = provider
    · rw [List.find?_cons_of_pos _ (by simp [h2]), if_pos h2.symm]
      rfl
    · rw [List.find?_cons_of_neg _ (by simp [h2]), if_neg (fun hh => h2 hh.symm)]
      rfl

/-- Claim C4: `fetch_photo` fails with `ValueError` exactly when the
provider identifier is not a registered key, and the message is then
`"Unknown provider: <provider>"`; a registered provider never produces a
`ValueError`, whatever the transport, cache and overrides do. -/
theorem unknown_provider_iff (accessKey : Option String) (enable : Bool) (t : Transport)
    (c : Cache) (provider : String) (overrides : Dict) (msg : String) :
    (fetch_photo accessKey enable t c provider overrides).1 = .error (.valueError msg) ↔
      (lookupProvider accessKey provider = none ∧ msg = "Unknown provider: " ++ provider) := by
  rcases hl : lookupProvider accessKey provider with _ | cfg
  · rw [fetch_photo_lookup_none accessKey enable t c provider overrides hl]
    simp [eq_comm]
  · have hcfg : cfg.post = _unsplash_post ∨ cfg.post = _lorem_picsum_post := by
      rw [lookupProvider_eq] at hl
      split at hl
      · exact .inl (by rw [← Option.some_inj.mp hl]; rfl)
      · split at hl
        · exact .inr (by rw [← Option.some_inj.mp hl]; rfl)
        · exact absurd hl (by simp)
    constructor
    · intro hres
      exfalso
      rcases hh : _get_from_cache enable c provider overrides with _ | v
      · rw [fetch_photo_miss accessKey enable t c provider overrides cfg hl hh] at hres
        rcases hf : (_fetch_from_provider t cfg (_build_request_params cfg overrides)).1 with
          e | v
        · rw [hf] at hres
          dsimp only at hres
          split at hres
          · simp at hres
          · simp at hres
            exact fetch_from_provider_no_valueError t cfg _ msg hcfg (hres ▸ hf)
        · rw [hf] at hres
          simp at hres
      · rw [fetch_photo_hit accessKey enable t c provider overrides cfg v hl hh] at hres
        simp at hres
    · intro h
      exact absurd h.1 (by simp)

/-- Auxiliary witness for C4: a registered provider used through
`unknown_provider_iff` (its reverse direction) at a concrete unknown key. -/
theorem unknown_provider_iff_witness :
    (fetch_photo none false constPng [] "nope" []).1 =
      .error (.valueError "Unknown provider: nope") :=
  (unknown_provider_iff none false constPng [] "nope" [] "Unknown provider: nope").mpr
    ⟨by rw [lookupProvider_eq]; rfl, rfl⟩

/-- With the cache flag off, `fetch_photo` leaves the cache untouched and
its trace is exactly the fetcher's trace. -/
lemma fetch_photo_disabled_shape (accessKey : Option String) (t : Transport) (c : Cache)
    (provider : String) (overrides : Dict) (cfg : ProviderCfg)
    (hl : lookupProvider accessKey provider = some cfg) :
    (fetch_photo accessKey false t c provider overrides).2.1 = c ∧
    (fetch_photo accessKey false t c provider overrides).2.2 =
      (_fetch_from_provider t cfg (_build_request_params cfg overrides)).2 := by
  rw [fetch_photo_miss accessKey false t c provider overrides cfg hl rfl]
  rcases hf : (_fetch_from_provider t cfg (_build_request_params cfg overrides)).1 with e | w <;>
    simp only [hf]
  · split <;> exact ⟨by simp, by simp⟩
  · exact ⟨by simp [_store_in_cache], by simp⟩

/-- Claim C2: with the cache toggle disabled, `_get_from_cache` always
reports a miss and `_store_in_cache` never creates an entry, so
`fetch_photo` leaves the cache exactly as it found it and every call on a
registered provider performs network I/O — in particular two identical
sequential calls both issue at least one HTTP request. -/
theorem cache_disabled_no_memoization (accessKey : Option String) (t : Transport) (c : Cache)
    (provider : String) (overrides : Dict) (v : List Nat × String) :
    _get_from_cache false c provider overrides = none ∧
    _store_in_cache false c provider overrides v = c ∧
    ∀ cfg, lookupProvider accessKey provider = some cfg →
      (fetch_photo accessKey false t c provider overrides).2.2 ≠ [] ∧
      (fetch_photo accessKey false t c provider overrides).2.1 = c ∧
      (fetch_photo accessKey false t
          (fetch_photo accessKey false t c provider overrides).2.1 provider overrides).2.2 ≠ [] := by
  refine ⟨rfl, rfl, fun cfg hl => ?_⟩
  obtain ⟨hc1, ht1⟩ := fetch_photo_disabled_shape accessKey t c provider overrides cfg hl
  obtain ⟨-, ht2⟩ := fetch_photo_disabled_shape accessKey t
    (fetch_photo accessKey false t c provider overrides).2.1 provider overrides cfg hl
  exact ⟨ht1 ▸ fetch_from_provider_trace_ne_nil t cfg _, hc1,
    ht2 ▸ fetch_from_provider_trace_ne_nil t cfg _⟩

/-- Witness for C2: both of two identical disabled-cache calls on
`lorem_picsum` issue a request, and the cache stays empty. -/
theorem cache_disabled_no_memoization_witness :
    (fetch_photo none false constPng [] "lorem_picsum" []).2.2 ≠ [] ∧
    (fetch_photo none false constPng [] "lorem_picsum" []).2.1 = [] ∧
    (fetch_photo none false constPng
        (fetch_photo none false constPng [] "lorem_picsum" []).2.1 "lorem_picsum" []).2.2 ≠ [] :=
  (cache_disabled_no_memoization none constPng [] "lorem_picsum" [] ([1], "m")).2.2
    loremPicsumCfg (by rw [lookupProvider_eq]; rfl)

/-- Claim C1: with the cache toggle enabled, after one successful
`fetch_photo` that returned `(b, m)` and the cache state `c2`, a second
call with the same provider and the same override (key, value) pairs — in
any insertion order — returns exactly the stored `(b, m)`, leaves the
cache at `c2`, and issues no HTTP request (empty trace). -/
theorem cache_enabled_second_call_hits (accessKey : Option String) (t : Transport)
    (c c2 : Cache) (provider : String) (o1 o2 : Dict) (b : List Nat) (m : String)
    (tr : List HttpRequest)
    (h1 : fetch_photo accessKey true t c provider o1 = (.ok (b, m), c2, tr))
    (hperm : o1.Perm o2) :
    fetch_photo accessKey true t c2 provider o2 = (.ok (b, m), c2, []) := by
  have hk : o1.toFinset = o2.toFinset := List.toFinset_eq_of_perm _ _ hperm
  rcases hl : lookupProvider accessKey provider with _ | cfg
  · rw [fetch_photo_lookup_none accessKey true t c provider o1 hl] at h1
    exact absurd h1 (by simp)
  · rcases hh : _get_from_cache true c provider o1 with _ | v
    · rw [fetch_photo_miss accessKey true t c provider o1 cfg hl hh] at h1
      rcases hf : (_fetch_from_provider t cfg (_build_request_params cfg o1)).1 with e | w
      · rw [hf] at h1
        dsimp only at h1
        split at h1 <;> simp at h1
      · rw [hf] at h1
        dsimp only at h1
        obtain ⟨hw, hc2, -⟩ : w = (b, m) ∧ _store_in_cache true c provider o1 w = c2 ∧
            (_fetch_from_provider t cfg (_build_request_params cfg o1)).2 = tr := by
          simpa [Prod.ext_iff] using h1
        subst hw
        have hh2 : _get_from_cache true c2 provider o2 = some (b, m) := by
          have hget : _get_from_cache true c2 provider o2 =
              cacheGet c2 (provider, o2.toFinset) := rfl
          have hstore : _store_in_cache true c provider o1 (b, m) =
              cachePut c (provider, o1.toFinset) (b, m) := rfl
          rw [hget, ← hc2, hstore, ← hk]
          exact cacheGet_cachePut_self c (provider, o1.toFinset) (b, m)
        rw [fetch_photo_hit accessKey true t c2 provider o2 cfg (b, m) hl hh2]
    · rw [fetch_photo_hit accessKey true t c provider o1 cfg v hl hh] at h1
      obtain ⟨hv, hc2, -⟩ : v = (b, m) ∧ c = c2 ∧ ([] : List HttpRequest) = tr := by
        simpa [Prod.ext_iff] using h1
      subst hv
      have hh2 : _get_from_cache true c2 provider o2 = some (b, m) := by
        rw [← hc2]
        have hget : _get_from_cache true c provider o2 =
            cacheGet c (provider, o2.toFinset) := rfl
        have hget1 : _get_from_cache true c provider o1 =
            cacheGet c (provider, o1.toFinset) := rfl
        rw [hget, ← hk, ← hget1]
        exact hh
      rw [fetch_photo_hit accessKey true t c2 provider o2 cfg (b, m) hl hh2]

/-- First-call overrides for the C1 witness. -/
def o1W : Dict := [("a", Value.str "1"), ("b", Value.str "2")]

/-- The same pairs as `o1W` in the other insertion order. -/
def o2W : Dict := [("b", Value.str "2"), ("a", Value.str "1")]

/-- Witness for C1: after a first `lorem_picsum` fetch with `{a:1, b:2}`,
the call with `{b:2, a:1}` returns the stored bytes from the cache with an
empty trace. -/
theorem cache_enabled_second_call_hits_witness :
    fetch_photo none true constPng (fetch_photo none true constPng [] "lorem_picsum" o1W).2.1
        "lorem_picsum" o2W =
      (.ok ([7, 8], "image/png"),
        (fetch_photo none true constPng [] "lorem_picsum" o1W).2.1, []) :=
  cache_enabled_second_call_hits none constPng [] _ "lorem_picsum" o1W o2W [7, 8] "image/png"
    _ rfl (by decide)

/-- Claim C9 is false on the code: with the `unsplash` provider (whose pre
hook is the identity, so the primary request records the hook's `params`
argument verbatim) and raw overrides `{}`, the primary request carries the
builder's merged defaults, not the raw overrides. -/
theorem pre_hook_params_ne_raw_overrides :
    (fetch_photo (some "KEY") false uWorld [] "unsplash" []).2.2.head? = some
      { url := "https://api.unsplash.com/photos/random",
        headers := some [("Authorization", "Client-ID KEY")],
        params := some [("orientation", Value.str "landscape"), ("w", Value.int 1920),
          ("h", Value.int 1080)],
        timeout := some 10 } ∧
    (fetch_photo (some "KEY") false uWorld [] "unsplash" []).2.2.head? ≠ some
      { url := "https://api.unsplash.com/photos/random",
        headers := some [("Authorization", "Client-ID KEY")],
        params := some ([] : Dict),
        timeout := some 10 } := by
  constructor
  · rfl
  · decide

/-- Amended C9: on a cache miss the orchestrator hands the pre hook the
builder's merged defaults+overrides output (a copy) as its `params`
argument — not the raw overrides, which are used only for the cache key —
so the primary request is `cfg.pre` applied to
`(api_url, _build_request_params cfg overrides)`. -/
theorem pre_hook_receives_built_params (accessKey : Option String) (enable : Bool)
    (t : Transport) (c : Cache) (provider : String) (cfg : ProviderCfg) (overrides : Dict)
    (hl : lookupProvider accessKey provider = some cfg)
    (hm : _get_from_cache enable c provider overrides = none) :
    (fetch_photo accessKey enable t c provider overrides).2.2.head? = some
      { url := (cfg.pre cfg.api_url (_build_request_params cfg overrides)).1,
        headers := some cfg.headers,
        params := some (cfg.pre cfg.api_url (_build_request_params cfg overrides)).2,
        timeout := some 10 } := by
  rw [fetch_photo_miss accessKey enable t c provider overrides cfg hl hm]
  rcases hf : (_fetch_from_provider t cfg (_build_request_params cfg overrides)).1 with e | w <;>
    simp only [hf]
  · split <;> exact fetch_from_provider_trace_head t cfg _
  · exact fetch_from_provider_trace_head t cfg _

/-- The overrides of the amended-C9 witness. -/
def catsOv : Dict := [("theme", Value.str "cats")]

/-- The unsplash config with a concrete access key, for witnesses. -/
def uCfgK : ProviderCfg := unsplashCfg (some "K")

/-- Witness for the amended C9 at a concrete input: with overrides
`{theme: cats}` the unsplash primary request carries the merged params
(including the `query` derived from the theme). -/
theorem pre_hook_receives_built_params_witness :
    (fetch_photo (some "K") false uWorld [] "unsplash" catsOv).2.2.head? =
      some { url := (uCfgK.pre uCfgK.api_url (_build_request_params uCfgK catsOv)).1,
             headers := some uCfgK.headers,
             params := some (uCfgK.pre uCfgK.api_url (_build_request_params uCfgK catsOv)).2,
             timeout := some 10 } :=
  pre_hook_receives_built_params (some "K") false uWorld [] "unsplash" uCfgK catsOv
    (by rw [lookupProvider_eq]; rfl) rfl

/-- The primary request `_fetch_from_provider` issues (definitionally). -/
def primaryRequest (cfg : ProviderCfg) (params : Dict) : HttpRequest :=
  { url := (cfg.pre cfg.api_url params).1, headers := some cfg.headers,
    params := some (cfg.pre cfg.api_url params).2, timeout := some 10 }

/-- The secondary request `_unsplash_post` issues for the resolved image
url (definitionally). -/
def imageRequest (u : String) : HttpRequest :=
  { url := u, headers := none, params := none, timeout := some 10 }

/-- The primary request of an unsplash fetch (the pre hook is the
identity, so the built params go on the wire unchanged). -/
def unsplashPrimary (accessKey : Option String) (overrides : Dict) : HttpRequest :=
  primaryRequest (unsplashCfg accessKey)
    (_build_request_params (unsplashCfg accessKey) overrides)

/-- Closed form of `_fetch_from_provider` in terms of `primaryRequest`. -/
lemma fetch_from_provider_eq (t : Transport) (cfg : ProviderCfg) (params : Dict) :
    _fetch_from_provider t cfg params =
      (match raiseForStatus (t (primaryRequest cfg params)) with
       | .error e => (.error e, [primaryRequest cfg params])
       | .ok _ =>
         ((cfg.post t (t (primaryRequest cfg params)) (cfg.pre cfg.api_url params).2).1,
           primaryRequest cfg params ::
             (cfg.post t (t (primaryRequest cfg params)) (cfg.pre cfg.api_url params).2).2)) :=
  rfl

lemma raiseForStatus_fail (r : HttpResponse) (h4 : 400 ≤ r.status) (h6 : r.status < 600) :
    raiseForStatus r = .error .httpStatusError := by
  unfold raiseForStatus
  rw [if_pos ⟨h4, h6⟩]

lemma raiseForStatus_okOf (r : HttpResponse) (h : ¬(400 ≤ r.status ∧ r.status < 600)) :
    raiseForStatus r = .ok () := by
  unfold raiseForStatus
  rw [if_neg h]

/-- A 4xx/5xx primary response makes `_fetch_from_provider` fail with the
status error after exactly one request. -/
lemma fetch_from_provider_primary_fail (t : Transport) (cfg : ProviderCfg) (params : Dict)
    (h4 : 400 ≤ (t (primaryRequest cfg params)).status)
    (h6 : (t (primaryRequest cfg params)).status < 600) :
    _fetch_from_provider t cfg params = (.error .httpStatusError, [primaryRequest cfg params]) := by
  rw [fetch_from_provider_eq, raiseForStatus_fail _ h4 h6]

/-- Claim C5 is false as stated: `raise_for_status` raises only for status
codes in [400, 600), so a 304 (non-2xx) primary response does not abort.
With `lorem_picsum` and a transport answering 304 everywhere, `fetch_photo`
succeeds, returns the 304 body, and even creates a cache entry. -/
theorem non2xx_not_always_fetch_failed :
    (stub304 (primaryRequest loremPicsumCfg
        (_build_request_params loremPicsumCfg []))).status = 304 ∧
    fetch_photo none true stub304 [] "lorem_picsum" [] =
      (.ok ([9], "image/jpeg"),
        [(("lorem_picsum", ([] : Dict).toFinset), ([9], "image/jpeg"))],
        [primaryRequest loremPicsumCfg (_build_request_params loremPicsumCfg [])]) := by
  constructor
  · rfl
  · rfl

/-- Amended C5: a primary response with a 4xx/5xx status makes
`fetch_photo` fail with the re-wrapped `RuntimeError` and leaves the cache
unchanged, for every registered provider; and for unsplash the same holds
when the primary succeeds but the secondary image fetch answers 4xx/5xx. -/
theorem fetch_failed_on_4xx_5xx :
    (∀ (accessKey : Option String) (enable : Bool) (t : Transport) (c : Cache)
        (provider : String) (cfg : ProviderCfg) (overrides : Dict),
      lookupProvider accessKey provider = some cfg →
      _get_from_cache enable c provider overrides = none →
      400 ≤ (t (primaryRequest cfg (_build_request_params cfg overrides))).status →
      (t (primaryRequest cfg (_build_request_params cfg overrides))).status < 600 →
      fetch_photo accessKey enable t c provider overrides =
        (.error (.runtimeError ("Failed to fetch photo from " ++ provider)), c,
          [primaryRequest cfg (_build_request_params cfg overrides)])) ∧
    (∀ (accessKey : Option String) (enable : Bool) (t : Transport) (c : Cache)
        (overrides : Dict) (j urls full : Json) (u : String),
      _get_from_cache enable c "unsplash" overrides = none →
      ¬(400 ≤ (t (unsplashPrimary accessKey overrides)).status ∧
          (t (unsplashPrimary accessKey overrides)).status < 600) →
      respJson (t (unsplashPrimary accessKey overrides)) = .ok j →
      jsonField j "urls" = .ok urls →
      jsonField urls "full" = .ok full →
      urlString full = .ok u →
      400 ≤ (t (imageRequest u)).status →
      (t (imageRequest u)).status < 600 →
      fetch_photo accessKey enable t c "unsplash" overrides =
        (.error (.runtimeError "Failed to fetch photo from unsplash"), c,
          [unsplashPrimary accessKey overrides, imageRequest u])) := by
  constructor
  · intro accessKey enable t c provider cfg overrides hl hm h4 h6
    rw [fetch_photo_miss accessKey enable t c provider overrides cfg hl hm]
    rw [fetch_from_provider_primary_fail t cfg _ h4 h6]
    rfl
  · intro accessKey enable t c overrides j urls full u hm hnot hj hu hf hs h4 h6
    have hl : lookupProvider accessKey "unsplash" = some (unsplashCfg accessKey) := by
      rw [lookupProvider_eq]
      rfl
    have hfr : _fetch_from_provider t (unsplashCfg accessKey)
        (_build_request_params (unsplashCfg accessKey) overrides) =
        (.error .httpStatusError, [unsplashPrimary accessKey overrides, imageRequest u]) := by
      rw [fetch_from_provider_eq]
      have hfold : primaryRequest (unsplashCfg accessKey)
          (_build_request_params (unsplashCfg accessKey) overrides) =
          unsplashPrimary accessKey overrides := rfl
      rw [hfold, raiseForStatus_okOf _ hnot]
      have hpost : (unsplashCfg accessKey).post = _unsplash_post := rfl
      rw [hpost]
      unfold _unsplash_post
      rw [hj]
      dsimp only
      rw [hu]
      dsimp only
      rw [hf]
      dsimp only
      rw [hs]
      dsimp only
      have hfold2 : ({ url := u, headers := none, params := none, timeout := some 10 }
          : HttpRequest) = imageRequest u := rfl
      rw [hfold2, raiseForStatus_fail _ h4 h6]
    rw [fetch_photo_miss accessKey enable t c "unsplash" overrides (unsplashCfg accessKey) hl hm]
    rw [hfr]
    rfl

/-- Witness for the amended C5, both parts: a 500 primary response on
`lorem_picsum`, and a 503 secondary response on `unsplash`, each yield the
re-wrapped `RuntimeError` and an unchanged cache. -/
theorem fetch_failed_on_4xx_5xx_witness :
    fetch_photo none true stub500 [] "lorem_picsum" [] =
      (.error (.runtimeError "Failed to fetch photo from lorem_picsum"), [],
        [primaryRequest loremPicsumCfg (_build_request_params loremPicsumCfg [])]) ∧
    fetch_photo (some "K") true uWorldBadImg [] "unsplash" [] =
      (.error (.runtimeError "Failed to fetch photo from unsplash"), [],
        [unsplashPrimary (some "K") [], imageRequest "https://img.example/full.jpg"]) :=
  ⟨fetch_failed_on_4xx_5xx.1 none true stub500 [] "lorem_picsum" loremPicsumCfg []
      (by rw [lookupProvider_eq]; rfl) rfl (by decide) (by decide),
   fetch_failed_on_4xx_5xx.2 (some "K") true uWorldBadImg [] []
      (.obj [("urls", .obj [("full", .str "https://img.example/full.jpg")])])
      (.obj [("full", .str "https://img.example/full.jpg")])
      (.str "https://img.example/full.jpg") "https://img.example/full.jpg"
      rfl (by decide) rfl rfl rfl rfl (by decide) (by decide)⟩

/-- Claim C6 is false as stated: with `requests` ≥ 2.27, `resp.json()` on a
non-JSON body raises `requests.exceptions.JSONDecodeError`, which IS a
`RequestException`, so `fetch_photo` catches it and re-wraps it as the
`RuntimeError` instead of letting it propagate.  Concretely, a 200 primary
response whose body is not JSON yields the re-wrapped error. -/
theorem nonjson_is_rewrapped_not_propagated :
    respJson (stubBadJson (unsplashPrimary none [])) = .error .jsonDecodeError ∧
    PyErr.jsonDecodeError.isRequestException = true ∧
    (fetch_photo none false stubBadJson [] "unsplash" []).1 =
      .error (.runtimeError "Failed to fetch photo from unsplash") := by
  refine ⟨rfl, rfl, rfl⟩

/-- Amended C6: `fetch_photo` re-wraps exactly the `RequestException`
failures of the fetch step as the `RuntimeError` and lets every other
exception through unmodified, with the cache unchanged either way.  The
`RequestException` class includes `JSONDecodeError` (a non-JSON body),
so that case is re-wrapped; the `KeyError` from JSON metadata that lacks
the `full` field is not a `RequestException` and propagates unmodified. -/
theorem transport_errors_rewrapped_others_propagate :
    (∀ (accessKey : Option String) (enable : Bool) (t : Transport) (c : Cache)
        (provider : String) (cfg : ProviderCfg) (overrides : Dict) (e : PyErr),
      lookupProvider accessKey provider = some cfg →
      _get_from_cache enable c provider overrides = none →
      (_fetch_from_provider t cfg (_build_request_params cfg overrides)).1 = .error e →
      (fetch_photo accessKey enable t c provider overrides).1 =
        (if e.isRequestException then
          .error (.runtimeError ("Failed to fetch photo from " ++ provider))
        else .error e) ∧
      (fetch_photo accessKey enable t c provider overrides).2.1 = c) ∧
    PyErr.jsonDecodeError.isRequestException = true ∧
    (∀ k : String, (PyErr.keyError k).isRequestException = false) ∧
    (∀ (t : Transport) (resp : HttpResponse) (params : Dict) (j urls : Json),
      respJson resp = .ok j →
      jsonField j "urls" = .ok urls →
      jsonField urls "full" = .error (.keyError "full") →
      (_unsplash_post t resp params).1 = .error (.keyError "full")) := by
  refine ⟨?_, rfl, fun k => rfl, ?_⟩
  · intro accessKey enable t c provider cfg overrides e hl hm hf
    rw [fetch_photo_miss accessKey enable t c provider overrides cfg hl hm]
    simp only [hf]
    by_cases he : e.isRequestException <;> simp [he]
  · intro t resp params j urls hj hu hf
    unfold _unsplash_post
    rw [hj]
    dsimp only
    rw [hu]
    dsimp only
    rw [hf]

/-- Witness for the amended C6, both directions at concrete inputs: the
non-JSON body is re-wrapped (a `RequestException`), while the
missing-`full` `KeyError` propagates unmodified through `fetch_photo`. -/
theorem transport_errors_rewrapped_others_propagate_witness :
    (fetch_photo none false stubBadJson [] "unsplash" []).1 =
      .error (.runtimeError "Failed to fetch photo from unsplash") ∧
    (fetch_photo none false uWorldNoFull [] "unsplash" []).1 =
      .error (.keyError "full") := by
  constructor
  · have h := (transport_errors_rewrapped_others_propagate.1 none false stubBadJson []
      "unsplash" (unsplashCfg none) [] .jsonDecodeError
      (by rw [lookupProvider_eq]; rfl) rfl rfl).1
    rw [h]
    rfl
  · have h := (transport_errors_rewrapped_others_propagate.1 none false uWorldNoFull []
      "unsplash" (unsplashCfg none) [] (.keyError "full")
      (by rw [lookupProvider_eq]; rfl) rfl ?_).1
    · rw [h]
      rfl
    · have h2 := transport_errors_rewrapped_others_propagate.2.2.2 uWorldNoFull
        (uWorldNoFull (unsplashPrimary none []))
        (_build_request_params (unsplashCfg none) [])
        (.obj [("urls", .obj [("raw", .str "https://img.example/raw.jpg")])])
        (.obj [("raw", .str "https://img.example/raw.jpg")]) rfl rfl rfl
      rw [fetch_from_provider_eq]
      rw [raiseForStatus_okOf _ (by decide)]
      exact h2

/-- Claim C10 is false as stated: on the happy path the two fetchers
return the same bytes/MIME, but their request sequences differ — the
legacy fetcher issues the secondary image GET with no timeout
(`requests.get(photo_url)`), the hook-based one with `timeout=10`. -/
theorem old_new_unsplash_trace_differs :
    (_fetch_from_provider_old uWorld (unsplashCfg (some "KEY")) []).1 =
      (_fetch_from_provider uWorld (unsplashCfg (some "KEY")) []).1 ∧
    ((_fetch_from_provider_old uWorld (unsplashCfg (some "KEY")) []).2.map
      (fun r => r.timeout)) = [some 10, none] ∧
    ((_fetch_from_provider uWorld (unsplashCfg (some "KEY")) []).2.map
      (fun r => r.timeout)) = [some 10, some 10] ∧
    (_fetch_from_provider_old uWorld (unsplashCfg (some "KEY")) []).2 ≠
      (_fetch_from_provider uWorld (unsplashCfg (some "KEY")) []).2 := by
  refine ⟨rfl, rfl, rfl, by decide⟩

/-- A request with its timeout field forgotten, to compare traces up to
timeouts. -/
def eraseTimeout (r : HttpRequest) : HttpRequest :=
  { url := r.url, headers := r.headers, params := r.params, timeout := none }

/-- The primary request `_fetch_from_provider_old` issues (definitionally;
no pre hook is applied). -/
def oldPrimary (cfg : ProviderCfg) (params : Dict) : HttpRequest :=
  { url := cfg.api_url, headers := some cfg.headers, params := some params, timeout := some 10 }

/-- The secondary request `_fetch_from_provider_old` issues: NO timeout. -/
def oldImage (u : String) : HttpRequest :=
  { url := u, headers := none, params := none, timeout := none }

/-- Closed form of `_fetch_from_provider_old`. -/
lemma fetch_from_provider_old_eq (t : Transport) (cfg : ProviderCfg) (params : Dict) :
    _fetch_from_provider_old t cfg params =
      (match raiseForStatus (t (oldPrimary cfg params)) with
       | .error e => (.error e, [oldPrimary cfg params])
       | .ok _ =>
         match respJson (t (oldPrimary cfg params)) with
         | .error e => (.error e, [oldPrimary cfg params])
         | .ok photo_data =>
           match jsonField photo_data "urls" with
           | .error e => (.error e, [oldPrimary cfg params])
           | .ok urls =>
             match jsonField urls "full" with
             | .error e => (.error e, [oldPrimary cfg params])
             | .ok full =>
               match urlString full with
               | .error e => (.error e, [oldPrimary cfg params])
               | .ok photo_url =>
                 match raiseForStatus (t (oldImage photo_url)) with
                 | .error e => (.error e, [oldPrimary cfg params, oldImage photo_url])
                 | .ok _ =>
                   (.ok ((t (oldImage photo_url)).content,
                       contentTypeOrDefault (t (oldImage photo_url))),
                     [oldPrimary cfg params, oldImage photo_url])) :=
  rfl

/-- Amended C10: for the unsplash configuration and any params, against
any transport whose responses do not depend on the timeout argument,
`_fetch_from_provider_old` and `_fetch_from_provider` return identical
results (bytes/MIME or error) and issue the same request sequence up to
the timeout field; the only difference is that the legacy fetcher's
secondary GET carries no timeout where the hook-based one carries 10. -/
theorem old_new_equiv_mod_timeout (accessKey : Option String) (t : Transport) (params : Dict)
    (ht : ∀ r1 r2 : HttpRequest, r1.url = r2.url → r1.headers = r2.headers →
        r1.params = r2.params → t r1 = t r2) :
    (_fetch_from_provider_old t (unsplashCfg accessKey) params).1 =
      (_fetch_from_provider t (unsplashCfg accessKey) params).1 ∧
    (_fetch_from_provider_old t (unsplashCfg accessKey) params).2.map eraseTimeout =
      (_fetch_from_provider t (unsplashCfg accessKey) params).2.map eraseTimeout := by
  rw [fetch_from_provider_old_eq, fetch_from_provider_eq]
  have hfold : oldPrimary (unsplashCfg accessKey) params =
      primaryRequest (unsplashCfg accessKey) params := rfl
  rw [hfold]
  have hpost : (unsplashCfg accessKey).post = _unsplash_post := rfl
  rw [hpost]
  unfold _unsplash_post
  rcases hr : raiseForStatus (t (primaryRequest (unsplashCfg accessKey) params)) with
    e | uu <;> simp only [hr]
  · exact ⟨by trivial, by trivial⟩
  · rcases hj : respJson (t (primaryRequest (unsplashCfg accessKey) params)) with
      e | photo_data <;> simp only [hj]
    · exact ⟨by trivial, by trivial⟩
    · rcases hu : jsonField photo_data "urls" with e | urls <;> simp only [hu]
      · exact ⟨by trivial, by trivial⟩
      · rcases hf : jsonField urls "full" with e | full <;> simp only [hf]
        · exact ⟨by trivial, by trivial⟩
        · rcases hs : urlString full with e | photo_url <;> simp only [hs]
          · exact ⟨by trivial, by trivial⟩
          · have hfold2 :
                ({ url := photo_url, headers := none, params := none, timeout := some 10 } :
                  HttpRequest) = imageRequest photo_url := rfl
            rw [hfold2]
            have himg : t (imageRequest photo_url) = t (oldImage photo_url) :=
              ht _ _ rfl rfl rfl
            rw [← himg]
            rcases hri : raiseForStatus (t (imageRequest photo_url)) with e | uu2 <;>
              simp only [hri]
            · exact ⟨by trivial, by trivial⟩
            · exact ⟨by trivial, by trivial⟩

/-- The Unsplash stub world only inspects the url, so it satisfies the
timeout-insensitivity hypothesis. -/
lemma uWorld_timeout_insensitive (r1 r2 : HttpRequest) (h1 : r1.url = r2.url)
    (_h2 : r1.headers = r2.headers) (_h3 : r1.params = r2.params) : uWorld r1 = uWorld r2 := by
  unfold uWorld
  rw [h1]

/-- Witness for the amended C10 at a concrete input: same result, same
timeout-erased traces. -/
theorem old_new_equiv_mod_timeout_witness :
    (_fetch_from_provider_old uWorld (unsplashCfg (some "KEY")) []).1 =
      (_fetch_from_provider uWorld (unsplashCfg (some "KEY")) []).1 ∧
    (_fetch_from_provider_old uWorld (unsplashCfg (some "KEY")) []).2.map eraseTimeout =
      (_fetch_from_provider uWorld (unsplashCfg (some "KEY")) []).2.map eraseTimeout :=
  old_new_equiv_mod_timeout (some "KEY") uWorld [] uWorld_timeout_insensitive

end Server
